import Mathlib

/-!
Shallow embedding of the State51 anomaly-detection engine.

The embedded functions mirror, statement by statement, the JavaScript source:
the sensor monitor (battery / magnetometer listeners, frequency-pattern
detection, anomaly recording, stop), and the database service (pattern
analysis, daily-report generation, trend calculation, report upsert).

JavaScript numbers are modelled by `JSNum`: a finite rational, positive or
negative infinity, or NaN.  The arithmetic in the claims involves only exact
operations (differences, divisions and comparisons of decimal constants), so
rationals with explicit infinities and NaN capture the observable behaviour;
signed zero never arises on the relevant paths.
-/

/-- A JavaScript number: finite value, plus or minus infinity, or NaN. -/
inductive JSNum where
  | fin : ℚ → JSNum
  | posInf : JSNum
  | negInf : JSNum
  | nan : JSNum
deriving DecidableEq, Repr

/-- JavaScript subtraction on `JSNum`. -/
def JSNum.sub : JSNum → JSNum → JSNum
  | .fin a, .fin b => .fin (a - b)
  | .fin _, .posInf => .negInf
  | .fin _, .negInf => .posInf
  | .posInf, .fin _ => .posInf
  | .negInf, .fin _ => .negInf
  | .posInf, .negInf => .posInf
  | .negInf, .posInf => .negInf
  | _, _ => .nan

/-- JavaScript addition on `JSNum`. -/
def JSNum.add : JSNum → JSNum → JSNum
  | .fin a, .fin b => .fin (a + b)
  | .fin _, .posInf => .posInf
  | .fin _, .negInf => .negInf
  | .posInf, .fin _ => .posInf
  | .negInf, .fin _ => .negInf
  | .posInf, .posInf => .posInf
  | .negInf, .negInf => .negInf
  | _, _ => .nan

/-- JavaScript multiplication on `JSNum`. -/
def JSNum.mul : JSNum → JSNum → JSNum
  | .fin a, .fin b => .fin (a * b)
  | .fin a, .posInf => if 0 < a then .posInf else if a < 0 then .negInf else .nan
  | .fin a, .negInf => if 0 < a then .negInf else if a < 0 then .posInf else .nan
  | .posInf, .fin b => if 0 < b then .posInf else if b < 0 then .negInf else .nan
  | .negInf, .fin b => if 0 < b then .negInf else if b < 0 then .posInf else .nan
  | .posInf, .posInf => .posInf
  | .negInf, .negInf => .posInf
  | .posInf, .negInf => .negInf
  | .negInf, .posInf => .negInf
  | _, _ => .nan

/-- JavaScript division on `JSNum` (division by zero gives an infinity, and
0/0 gives NaN, as IEEE-754 prescribes; the model has no negative zero). -/
def JSNum.div : JSNum → JSNum → JSNum
  | .fin a, .fin b =>
      if b = 0 then
        if 0 < a then .posInf else if a < 0 then .negInf else .nan
      else .fin (a / b)
  | .fin _, .posInf => .fin 0
  | .fin _, .negInf => .fin 0
  | .posInf, .fin b => if b < 0 then .negInf else .posInf
  | .negInf, .fin b => if b < 0 then .posInf else .negInf
  | _, _ => .nan

/-- JavaScript `Math.abs` on `JSNum`. -/
def JSNum.abs : JSNum → JSNum
  | .fin a => .fin |a|
  | .posInf => .posInf
  | .negInf => .posInf
  | .nan => .nan

/-- JavaScript strict-less-than on `JSNum` (any comparison with NaN is false). -/
def JSNum.lt : JSNum → JSNum → Bool
  | .fin a, .fin b => a < b
  | .fin _, .posInf => true
  | .fin _, .negInf => false
  | .posInf, .fin _ => false
  | .negInf, .fin _ => true
  | .posInf, .negInf => false
  | .negInf, .posInf => true
  | _, _ => false

/-- JavaScript truthiness of a number: `0` and `NaN` are falsy. -/
def JSNum.truthy : JSNum → Bool
  | .fin a => a ≠ 0
  | .nan => false
  | _ => true

/-- An anomaly object as passed to `recordAnomaly` (the auxiliary `data` /
`targetFreq` payload fields are carried nowhere the claims look, and are
omitted). -/
structure Anomaly where
  type : String
  value : JSNum
  significance : String
  message : String
deriving DecidableEq, Repr

/-- The part of the captured baseline that the battery listener reads:
`baseline.battery.level` and `baseline.timestamp` (milliseconds). -/
structure BatteryBaseline where
  level : ℚ
  timestamp : ℚ
deriving DecidableEq, Repr

/-- `drainPerHour` as computed in `monitorBattery`:
`drainRate = baseline.battery.level - batteryLevel`,
`timeElapsed = (Date.now() - baseline.timestamp) / 3600000`,
`drainPerHour = drainRate / timeElapsed`.  The two differences and the
division by the constant are finite; the final division may overflow to an
infinity or NaN when `timeElapsed` is zero. -/
def drainPerHourOf (b : BatteryBaseline) (batteryLevel now : ℚ) : JSNum :=
  JSNum.div (.fin (b.level - batteryLevel)) (.fin ((now - b.timestamp) / 3600000))

/-- Body of the `monitorBattery` battery-level listener: with no baseline the
checks are skipped; otherwise the drain-rate-match and unexplained-increase
rules fire independently. -/
def batteryAnomalies (baseline : Option BatteryBaseline) (batteryLevel now : ℚ) :
    List Anomaly :=
  match baseline with
  | none => []
  | some b =>
    let dph := drainPerHourOf b batteryLevel now
    (if ((dph.sub (.fin (77/1000))).abs.lt (.fin (1/100))) = true then
      [{ type := "battery_777", value := dph, significance := "high",
         message := "Battery drain near 7.7% universal constant!" }]
     else [])
    ++
    (if (dph.lt (.fin 0)) = true then
      [{ type := "battery_increase", value := dph, significance := "critical",
         message := "Battery level increasing without charging source!" }]
     else [])

/-- Body of the `monitorMagnetometer` listener, after the magnitude
`sqrt(x^2 + y^2 + z^2)` has been computed (the claims fix the magnitude
itself, so the listener is embedded as a function of that magnitude).
`baselineMag` is `baselineData.sensors.magneticField` when the baseline
exists and the field was captured; the JavaScript guard
`baselineData && baselineData.sensors.magneticField` also rejects a zero
(falsy) captured value. -/
def magnetometerAnomalies (baselineMag : Option ℚ) (magnitude : ℚ) :
    List Anomaly :=
  match baselineMag with
  | none => []
  | some bmf =>
    if bmf = 0 then []
    else
      (if 10 < |magnitude - bmf| then
        [{ type := "magnetic_anomaly", value := .fin |magnitude - bmf|,
           significance := if 50 < |magnitude - bmf| then "high" else "medium",
           message := "Magnetic field changed" }]
       else [])
      ++
      (if |magnitude - 51| < 1 then
        [{ type := "magnetic_51", value := .fin magnitude, significance := "high",
           message := "Magnetic field at State 51 resonance (51 uT)!" }]
       else [])

/-- One buffered point of a per-channel frequency buffer:
`{ value, timestamp }` with the timestamp in milliseconds. -/
structure BufPoint where
  value : ℚ
  timestamp : ℚ
deriving DecidableEq, Repr

/-- `findPeaks`: every point strictly greater than both immediate neighbours
(the JavaScript loop runs `i` from `1` to `length - 2`). -/
def findPeaks : List BufPoint → List BufPoint
  | a :: b :: c :: rest =>
      (if a.value < b.value ∧ c.value < b.value then [b] else []) ++
        findPeaks (b :: c :: rest)
  | _ => []

/-- The running total of `peaks[i].timestamp - peaks[i-1].timestamp` built by
the loop in `estimateFrequency`. -/
def peakPeriodSum : List BufPoint → ℚ
  | a :: b :: rest => (b.timestamp - a.timestamp) + peakPeriodSum (b :: rest)
  | _ => 0

/-- `estimateFrequency(peaks)`: with fewer than two peaks the function
returns `0` (the "no estimate" value); otherwise `1000 / avgPeriod`, where a
zero average period overflows to infinity exactly as in JavaScript. -/
def estimateFrequency (peaks : List BufPoint) : JSNum :=
  if peaks.length < 2 then .fin 0
  else JSNum.div (.fin 1000) (.fin (peakPeriodSum peaks / ((peaks.length : ℚ) - 1)))

/-- The guard-plus-estimate pipeline as `detectFrequencyPattern` runs it: the
source keeps the `buffer` local bound to the un-pruned array (after the
`push`, before the time-based `filter` replaces the stored buffer), checks
`buffer.length > 10` on it, and estimates from its peaks.  `none` is the
"no estimate" outcome of the ≥ 11 points guard. -/
def estimateOnBuffer (buf : List BufPoint) : Option JSNum :=
  if 10 < buf.length then some (estimateFrequency (findPeaks buf)) else none

/-- `detectFrequencyPattern(value, targetFreq, sensorType)` on the current
buffer of that channel: pushes the new point, prunes the stored buffer to the
last 10 seconds, and — on the un-pruned array, which is what the source's
local `buffer` still names — runs the ≥ 11 points guard, peak finding,
frequency estimation and the resonance comparison.  Returns the new stored
buffer and the anomalies recorded. -/
def detectFrequencyPattern (buffer : List BufPoint) (value now targetFreq : ℚ)
    (sensorType : String) : List BufPoint × List Anomaly :=
  let buf1 := buffer ++ [⟨value, now⟩]
  let pruned := buf1.filter (fun p => decide (now - 10000 < p.timestamp))
  let anomalies :=
    match estimateOnBuffer buf1 with
    | none => []
    | some frequency =>
      if ((frequency.sub (.fin targetFreq)).abs.lt (.fin (1/10))) = true then
        [{ type := "frequency_match_" ++ sensorType, value := frequency,
           significance := "high",
           message := sensorType ++ " resonating at target frequency!" }]
      else []
  (pruned, anomalies)

/-- An anomaly stamped by `recordAnomaly` with `timestamp = Date.now()` and
`cosmicWindow = isCosmicWindow()` before being pushed in memory. -/
structure StampedAnomaly where
  anomaly : Anomaly
  timestamp : ℚ
  cosmicWindow : Bool
deriving DecidableEq, Repr

/-- The mutable fields of the `SensorMonitor` singleton that `stopMonitoring`
and `recordAnomaly` touch or that the claims observe.  Subscription handles
are opaque (numbers); `frequencyBuffers` is the lazily-built map from channel
name to buffer. -/
structure MonitorState where
  isMonitoring : Bool
  subscriptions : List ℕ
  frequencyBuffers : List (String × List BufPoint)
  anomalies : List StampedAnomaly
deriving DecidableEq, Repr

/-- `stopMonitoring()`: sets `isMonitoring = false`, removes every
subscription and empties the subscription list.  It touches nothing else —
in particular `frequencyBuffers` and `anomalies` are left as they are. -/
def stopMonitoring (s : MonitorState) : MonitorState :=
  { s with isMonitoring := false, subscriptions := [] }

/-- `isCosmicWindow()`: local hour in `[3, 4)`. -/
def isCosmicWindow (hour : ℕ) : Bool :=
  decide (3 ≤ hour ∧ hour < 4)

/-- A row of the `anomalies` table as written by `saveAnomaly` (the redundant
serialized `data` blob is omitted; `cosmic_window` keeps its 0/1 integer
meaning as a boolean). -/
structure AnomalyRow where
  timestamp : ℚ
  type : String
  value : JSNum
  significance : String
  cosmic_window : Bool
  message : String
deriving DecidableEq, Repr

/-- A row of the `scans` table, restricted to the columns the analysis and
report code reads (`battery_level`, `magnetic_field`, `timestamp`,
`state51_active`); the remaining columns are carried nowhere the claims
look. -/
structure ScanRow where
  timestamp : ℚ
  battery_level : ℚ
  magnetic_field : ℚ
  state51_active : Bool
deriving DecidableEq, Repr

/-- A row of the `daily_reports` table: the eight structured columns written
by `saveDailyReport` (the redundant `report_data` JSON copy of the report is
omitted).  The table declares `date TEXT NOT NULL UNIQUE`. -/
structure ReportRow where
  date : String
  total_anomalies : ℕ
  high_significance_count : ℕ
  cosmic_window_anomalies : ℕ
  state51_correlations : ℕ
  battery_anomalies : ℕ
  magnetic_anomalies : ℕ
  frequency_matches : ℕ
deriving DecidableEq, Repr

/-- The SQLite database contents relevant to the claims. -/
structure Database where
  anomalies : List AnomalyRow
  scans : List ScanRow
  reports : List ReportRow
deriving DecidableEq, Repr

/-- JavaScript `x || 0` on a number: keep a truthy value, else `0`. -/
def jsOrZero (v : JSNum) : JSNum :=
  if v.truthy then v else .fin 0

/-- The row `saveAnomaly` inserts: `value || 0`, `significance || 'low'`
(the empty string encodes an absent significance), `cosmicWindow ? 1 : 0`. -/
def rowOfAnomaly (a : Anomaly) (now : ℚ) (cosmic : Bool) : AnomalyRow :=
  { timestamp := now
    type := a.type
    value := jsOrZero a.value
    significance := if a.significance = "" then "low" else a.significance
    cosmic_window := cosmic
    message := a.message }

/-- `saveAnomaly`: appends one row to the `anomalies` table. -/
def saveAnomalyRow (db : Database) (r : AnomalyRow) : Database :=
  { db with anomalies := db.anomalies ++ [r] }

/-- `recordAnomaly(anomaly)`: stamps timestamp and cosmic window, pushes the
anomaly in memory, persists it, and — in the same call, after the persistence
write — triggers the alert side effect exactly when the significance is
`high` or `critical`.  The returned list is the alert invocations made by
this call. -/
def recordAnomaly (s : MonitorState) (db : Database) (a : Anomaly) (now : ℚ)
    (hour : ℕ) : MonitorState × Database × List StampedAnomaly :=
  let stamped : StampedAnomaly := ⟨a, now, isCosmicWindow hour⟩
  let s₂ := { s with anomalies := s.anomalies ++ [stamped] }
  let db₂ := saveAnomalyRow db (rowOfAnomaly a now (isCosmicWindow hour))
  let alerts :=
    if a.significance = "high" ∨ a.significance = "critical" then [stamped] else []
  (s₂, db₂, alerts)

/-- `getAnomalies(startTime, endTime)`: the rows with
`timestamp >= startTime AND timestamp <= endTime`.  The SQL orders the rows
by timestamp (descending); every consumer embedded here only counts or
filters the result, so the stored order is kept. -/
def getAnomalies (db : Database) (startTime endTime : ℚ) : List AnomalyRow :=
  db.anomalies.filter (fun a =>
    decide (startTime ≤ a.timestamp) && decide (a.timestamp ≤ endTime))

/-- JavaScript `String.prototype.includes` for the non-empty literals the
source searches for ("51", "777", "battery", "magnetic", "frequency"). -/
def strIncludes (s sub : String) : Bool :=
  decide ((s.splitOn sub).length ≠ 1)

/-- The result of `analyzePatterns` (the per-type and per-significance
distribution tables are built but consumed by no claim, and are omitted). -/
structure PatternAnalysis where
  anomalyCount : ℕ
  recentCount : ℕ
  anomalySpike : Bool
  cosmicCorrelation : JSNum
  state51Count : ℕ
  mutationCount : ℕ
  hasState51 : Bool
  hasMutation : Bool
  hasCosmicCorrelation : Bool
deriving DecidableEq, Repr

/-- `analyzePatterns()` at time `now`: fetches the last-hour and last-day
anomalies, counts the cosmic-window split, and computes
`cosmicCorrelation = cosmicWindowCount.true / (cosmicWindowCount.true +
cosmicWindowCount.false)` — an unguarded division whose denominator is the
daily count. -/
def analyzePatterns (db : Database) (now : ℚ) : PatternAnalysis :=
  let recentAnomalies := getAnomalies db (now - 3600000) now
  let dailyAnomalies := getAnomalies db (now - 86400000) now
  let cosmicTrue := (dailyAnomalies.filter (·.cosmic_window)).length
  let cosmicFalse := (dailyAnomalies.filter (fun a => !a.cosmic_window)).length
  let cosmicCorrelation :=
    JSNum.div (.fin (cosmicTrue : ℚ)) (.fin ((cosmicTrue : ℚ) + (cosmicFalse : ℚ)))
  let state51Patterns := dailyAnomalies.filter (fun a =>
    strIncludes a.type "51" || ((a.value.sub (.fin 51)).abs.lt (.fin 1)) ||
      ((a.value.sub (.fin (51/100))).abs.lt (.fin (1/100))))
  let mutationPatterns := dailyAnomalies.filter (fun a =>
    ((a.value.sub (.fin (77/1000))).abs.lt (.fin (1/1000))) ||
      ((a.value.sub (.fin (77/10))).abs.lt (.fin (1/10))) ||
      strIncludes a.type "777")
  { anomalyCount := dailyAnomalies.length
    recentCount := recentAnomalies.length
    anomalySpike :=
      decide ((dailyAnomalies.length : ℚ) / 24 * 2 < (recentAnomalies.length : ℚ))
    cosmicCorrelation := cosmicCorrelation
    state51Count := state51Patterns.length
    mutationCount := mutationPatterns.length
    hasState51 := decide (0 < state51Patterns.length)
    hasMutation := decide (0 < mutationPatterns.length)
    hasCosmicCorrelation := (JSNum.fin (1/2)).lt cosmicCorrelation }

/-- The qualitative trend produced by `calculateTrend`: the JavaScript
returns the string `'stable'`, `` `increasing X%` `` or `` `decreasing X%` ``;
the label is embedded as a constructor carrying the percent change the
string is formatted from. -/
inductive TrendLabel where
  | stable : TrendLabel
  | increasing : JSNum → TrendLabel
  | decreasing : JSNum → TrendLabel
deriving DecidableEq, Repr

/-- The `percentChange` computed inside `calculateTrend` for a series split
at `floor(length / 2)`: `(secondAvg - firstAvg) / firstAvg * 100`.  On a
series of length at least 2 both halves are non-empty, so the two averages
are the finite JavaScript values; the final division is unguarded (a zero
first-half mean overflows to an infinity or NaN). -/
def percentChangeOf (values : List ℚ) : JSNum :=
  let firstHalf := values.take (values.length / 2)
  let secondHalf := values.drop (values.length / 2)
  let firstAvg := firstHalf.sum / (firstHalf.length : ℚ)
  let secondAvg := secondHalf.sum / (secondHalf.length : ℚ)
  JSNum.mul (JSNum.div (.fin (secondAvg - firstAvg)) (.fin firstAvg)) (.fin 100)

/-- `calculateTrend(values)`: `'stable'` for fewer than two values; otherwise
`'stable'` when `|percentChange| < 1`, `'increasing'` when additionally
`percentChange > 0`, else `'decreasing'`. -/
def calculateTrend (values : List ℚ) : TrendLabel :=
  if values.length < 2 then .stable
  else
    let pc := percentChangeOf values
    if (pc.abs.lt (.fin 1)) = true then .stable
    else if ((JSNum.fin 0).lt pc) = true then .increasing pc
    else .decreasing pc

/-- The `state51Effect` object assembled by `generateDailyReport`. -/
structure State51Effect where
  activePeriods : ℕ
  anomalyRate : ℚ
  correlation : String
deriving DecidableEq, Repr

/-- `Math.abs(s.timestamp - a.timestamp) < 60000`: the scan is within 60
seconds of the anomaly. -/
def scanNearB (a : AnomalyRow) (s : ScanRow) : Bool :=
  decide (|s.timestamp - a.timestamp| < 60000)

/-- The predicate of the anomaly filter in `generateDailyReport`:
`scans.find(...)` returns the first scan within 60 seconds of the anomaly
(or nothing), and the anomaly counts when that found scan is flagged
`state51_active`. -/
def qualifiesB (scans : List ScanRow) (a : AnomalyRow) : Bool :=
  match scans.find? (scanNearB a) with
  | some s => s.state51_active
  | none => false

/-- Lines 302–315 of the database service: `state51ActiveScans` filters the
day's scans on the flag; `anomalyRate` divides the count of qualifying
anomalies by the count of active scans (`0` when there is no active scan);
`correlation` is `'positive'` exactly when the rate exceeds `0.1`. -/
def state51EffectOf (anomalies : List AnomalyRow) (scans : List ScanRow) :
    State51Effect :=
  let active := scans.filter (·.state51_active)
  let rate : ℚ :=
    if 0 < active.length then
      ((anomalies.filter (qualifiesB scans)).length : ℚ) / (active.length : ℚ)
    else 0
  { activePeriods := active.length
    anomalyRate := rate
    correlation := if 1/10 < rate then "positive" else "none" }

/-- Stated from the claim's words, for comparison with `state51EffectOf`:
"the fraction of the day's anomalies whose timestamp is within 60 seconds of
a scan flagged generation-active". -/
def claimAnomalyRate (anomalies : List AnomalyRow) (scans : List ScanRow) : ℚ :=
  ((anomalies.filter (fun a =>
      scans.any (fun s => s.state51_active && scanNearB a s))).length : ℚ) /
    (anomalies.length : ℚ)

/-- The declarative reading of `qualifiesB`: some decomposition of the scan
list puts a scan within 60 seconds of the anomaly, flagged active, with
every earlier scan not within 60 seconds. -/
def firstScanNearIsActive (scans : List ScanRow) (a : AnomalyRow) : Prop :=
  ∃ pre s post, scans = pre ++ s :: post ∧ scanNearB a s = true ∧
    s.state51_active = true ∧ ∀ s₂ ∈ pre, scanNearB a s₂ = false

/-- The eight structured columns of a daily report, computed from the day's
anomalies exactly as lines 279–288 build the `report` object (the
trend/effect/findings parts of the report travel only in the omitted
`report_data` JSON and are embedded by `calculateTrend` and
`state51EffectOf`). -/
def buildReportRow (dateStr : String) (anomalies : List AnomalyRow) : ReportRow :=
  { date := dateStr
    total_anomalies := anomalies.length
    high_significance_count := (anomalies.filter (fun a =>
      decide (a.significance = "high" ∨ a.significance = "critical"))).length
    cosmic_window_anomalies := (anomalies.filter (·.cosmic_window)).length
    state51_correlations := (anomalies.filter (fun a => strIncludes a.type "51")).length
    battery_anomalies := (anomalies.filter (fun a => strIncludes a.type "battery")).length
    magnetic_anomalies := (anomalies.filter (fun a => strIncludes a.type "magnetic")).length
    frequency_matches := (anomalies.filter (fun a => strIncludes a.type "frequency")).length }

/-- `saveDailyReport(report)`: `INSERT OR REPLACE` into a table with
`date TEXT NOT NULL UNIQUE` — any row with the same date is deleted and the
new row inserted. -/
def saveDailyReport (db : Database) (r : ReportRow) : Database :=
  { db with reports := (db.reports.filter (fun x => decide (x.date ≠ r.date))) ++ [r] }

/-- The stored reports whose `date` column equals `d`. -/
def reportsFor (db : Database) (d : String) : List ReportRow :=
  db.reports.filter (fun x => decide (x.date = d))

/-- `generateDailyReport(date)` restricted to what it persists in the
structured columns: query the day's anomalies, build the report row, upsert
it.  The day's bounds arrive as the two timestamps the source computes from
the date. -/
def generateDailyReport (db : Database) (dateStr : String) (startTs endTs : ℚ) :
    ReportRow × Database :=
  let anomalies := getAnomalies db startTs endTs
  let row := buildReportRow dateStr anomalies
  (row, saveDailyReport db row)

/-- Upserting a report leaves exactly that report stored under its date. -/
theorem reportsFor_saveDailyReport (db : Database) (r : ReportRow) :
    reportsFor (saveDailyReport db r) r.date = [r] := by
  simp only [reportsFor, saveDailyReport, List.filter_append, List.filter_filter]
  simp

/-- Generating a report for a date leaves exactly the generated row stored
under that date, whatever the database held before. -/
theorem reportsFor_generateDailyReport (db : Database) (d : String)
    (s e : ℚ) :
    reportsFor (generateDailyReport db d s e).2 d =
      [(generateDailyReport db d s e).1] := by
  exact reportsFor_saveDailyReport db (buildReportRow d (getAnomalies db s e))

/-- Claim C5 (counterexample): the claim says every per-channel frequency
buffer is cleared by `stopMonitoring()`; on a state holding one buffered
point in the `acceleration` buffer, `stopMonitoring` leaves that point in
place. -/
theorem stopMonitoring_buffer_not_cleared_counterexample :
    (stopMonitoring
        (MonitorState.mk true [0] [("acceleration", [⟨1, 0⟩])] [])).frequencyBuffers
      = [("acceleration", [⟨(1 : ℚ), (0 : ℚ)⟩])] ∧
    ([(⟨(1 : ℚ), (0 : ℚ)⟩ : BufPoint)] : List BufPoint) ≠ [] := by
  exact ⟨rfl, by simp⟩

/-- Claim C5 (amended): `stopMonitoring()` sets `isMonitoring` to false and
empties the subscription list, and leaves the per-channel frequency buffers
(and the in-memory anomaly list) unchanged — the buffers are NOT cleared;
they are only pruned to the last 10 seconds when a later sample is
inserted. -/
theorem stopMonitoring_behavior (s : MonitorState) :
    (stopMonitoring s).isMonitoring = false ∧
    (stopMonitoring s).subscriptions = [] ∧
    (stopMonitoring s).frequencyBuffers = s.frequencyBuffers ∧
    (stopMonitoring s).anomalies = s.anomalies :=
  ⟨rfl, rfl, rfl, rfl⟩

/-- Claim C6: generating the daily report twice for the same date — with
arbitrary further anomalies arriving in between — leaves exactly one stored
report row for that date, the one built by the second generation from the
data visible to it (insert-or-replace keyed by date, no merge). -/
theorem dailyReport_upsert_overwrites (db : Database) (d : String)
    (s₁ e₁ s₂ e₂ : ℚ) (A : List AnomalyRow) (S : List ScanRow) :
    reportsFor (generateDailyReport
        (Database.mk A S (generateDailyReport db d s₁ e₁).2.reports)
        d s₂ e₂).2 d
      = [(generateDailyReport
          (Database.mk A S (generateDailyReport db d s₁ e₁).2.reports)
          d s₂ e₂).1] ∧
    (generateDailyReport
        (Database.mk A S (generateDailyReport db d s₁ e₁).2.reports)
        d s₂ e₂).1
      = buildReportRow d (getAnomalies
          (Database.mk A S (generateDailyReport db d s₁ e₁).2.reports)
          s₂ e₂) :=
  ⟨reportsFor_generateDailyReport _ d s₂ e₂, rfl⟩

/-- Claim C7: `recordAnomaly` invokes the alert callback exactly once when
the anomaly's significance is `high` or `critical`, never for `low` or
`medium`, and in the same call appends exactly one row to the persisted
anomalies table (the alert is synchronous with the persistence). -/
theorem recordAnomaly_alert_exactly_once (s : MonitorState) (db : Database)
    (a : Anomaly) (now : ℚ) (hour : ℕ) :
    ((a.significance = "high" ∨ a.significance = "critical") ↔
      (recordAnomaly s db a now hour).2.2.length = 1) ∧
    ((a.significance = "low" ∨ a.significance = "medium") →
      (recordAnomaly s db a now hour).2.2 = []) ∧
    (recordAnomaly s db a now hour).2.1.anomalies =
      db.anomalies ++ [rowOfAnomaly a now (isCosmicWindow hour)] := by
  refine ⟨?_, ?_, rfl⟩
  · by_cases h : a.significance = "high" ∨ a.significance = "critical"
    · simp [recordAnomaly, h]
    · simp [recordAnomaly, h]
  · intro h₂
    have h₃ : ¬ (a.significance = "high" ∨ a.significance = "critical") := by
      rcases h₂ with h₂ | h₂ <;> rw [h₂] <;> simp
    simp [recordAnomaly, h₃]

/-- Claim C7 (witness): recording a `low` anomaly makes no alert call. -/
theorem recordAnomaly_alert_exactly_once_witness :
    (recordAnomaly ⟨false, [], [], []⟩ ⟨[], [], []⟩
      ⟨"pressure_anomaly", .fin 3, "low", "Pressure changed"⟩ 0 0).2.2 = [] :=
  (recordAnomaly_alert_exactly_once ⟨false, [], [], []⟩ ⟨[], [], []⟩
    ⟨"pressure_anomaly", .fin 3, "low", "Pressure changed"⟩ 0 0).2.1 (Or.inl rfl)

/-- Claim C4: when the buffer at evaluation time (the stored buffer plus the
just-inserted sample) holds fewer than 11 points, the ≥ 11 points guard
yields no frequency estimate and `detectFrequencyPattern` records no
frequency-resonance anomaly. -/
theorem short_buffer_no_frequency_anomaly (buffer : List BufPoint)
    (value now targetFreq : ℚ) (sensorType : String)
    (h : (buffer ++ [(⟨value, now⟩ : BufPoint)]).length < 11) :
    estimateOnBuffer (buffer ++ [(⟨value, now⟩ : BufPoint)]) = none ∧
    (detectFrequencyPattern buffer value now targetFreq sensorType).2 = [] := by
  simp only [List.length_append, List.length_cons, List.length_nil] at h
  have hng : ¬ 10 < buffer.length + 1 := by omega
  constructor
  · simp [estimateOnBuffer, hng]
  · simp [detectFrequencyPattern, estimateOnBuffer, hng]

/-- Claim C4 (witness): a buffer of one point produces no estimate and no
anomaly. -/
theorem short_buffer_no_frequency_anomaly_witness :
    estimateOnBuffer ([] ++ [⟨5, 1000⟩]) = none ∧
    (detectFrequencyPattern [] 5 1000 (1038/1000) "acceleration").2 = [] :=
  short_buffer_no_frequency_anomaly [] 5 1000 (1038/1000) "acceleration" (by decide)

/-- Claim C9: a battery sample whose computed drain-per-hour is exactly
0.077 produces the `battery_777` anomaly with significance `high`; a
drain-per-hour of exactly 0.090 produces no `battery_777` anomaly. -/
theorem battery_777_rule (b : BatteryBaseline) (level now : ℚ) :
    (drainPerHourOf b level now = .fin (77/1000) →
      ({ type := "battery_777", value := .fin (77/1000), significance := "high",
         message := "Battery drain near 7.7% universal constant!" } : Anomaly)
        ∈ batteryAnomalies (some b) level now) ∧
    (drainPerHourOf b level now = .fin (9/100) →
      ∀ a ∈ batteryAnomalies (some b) level now, a.type ≠ "battery_777") := by
  constructor
  · intro h
    simp only [batteryAnomalies, h]
    norm_num [JSNum.sub, JSNum.abs, JSNum.lt]
  · intro h
    simp only [batteryAnomalies, h]
    norm_num [JSNum.sub, JSNum.abs, JSNum.lt]
    rw [abs_of_nonneg (by norm_num)]
    norm_num

/-- Claim C9 (witness): from baseline level 1 at time 0, level 0.923 one
hour later gives a drain of exactly 0.077 per hour and the `battery_777`
anomaly. -/
theorem battery_777_rule_witness :
    ({ type := "battery_777", value := .fin (77/1000), significance := "high",
       message := "Battery drain near 7.7% universal constant!" } : Anomaly)
      ∈ batteryAnomalies (some ⟨1, 0⟩) (923/1000) 3600000 :=
  (battery_777_rule ⟨1, 0⟩ (923/1000) 3600000).1
    (by norm_num [drainPerHourOf, JSNum.div])

/-- Claim C10: a battery sample arriving with zero elapsed time since the
baseline divides by zero unguarded — `drainPerHour` is an infinity or NaN —
and a level strictly above the baseline level gives `-Infinity`, which
satisfies `drainPerHour < 0` and fires the `battery_increase` anomaly with
significance `critical`. -/
theorem battery_zero_elapsed_division (b : BatteryBaseline) (level : ℚ) :
    (drainPerHourOf b level b.timestamp = .posInf ∨
     drainPerHourOf b level b.timestamp = .negInf ∨
     drainPerHourOf b level b.timestamp = .nan) ∧
    (b.level < level →
      drainPerHourOf b level b.timestamp = .negInf ∧
      ({ type := "battery_increase", value := .negInf,
         significance := "critical",
         message := "Battery level increasing without charging source!" } : Anomaly)
        ∈ batteryAnomalies (some b) level b.timestamp) := by
  have h₀ : drainPerHourOf b level b.timestamp =
      JSNum.div (.fin (b.level - level)) (.fin 0) := by
    simp [drainPerHourOf]
  have hdiv : JSNum.div (.fin (b.level - level)) (.fin 0) =
      if 0 < b.level - level then .posInf
      else if b.level - level < 0 then .negInf else .nan := by
    simp [JSNum.div]
  constructor
  · rw [h₀, hdiv]
    rcases lt_trichotomy (b.level - level) 0 with h | h | h
    · rw [if_neg (by linarith), if_pos h]; exact Or.inr (Or.inl rfl)
    · rw [if_neg (by linarith), if_neg (by linarith)]; exact Or.inr (Or.inr rfl)
    · rw [if_pos h]; exact Or.inl rfl
  · intro hlt
    have hd : drainPerHourOf b level b.timestamp = .negInf := by
      rw [h₀, hdiv, if_neg (by linarith), if_pos (by linarith)]
    refine ⟨hd, ?_⟩
    simp [batteryAnomalies, hd, JSNum.sub, JSNum.abs, JSNum.lt]

/-- Claim C10 (witness): baseline level 0.5 at time 0, a sample of level 1
at time 0 gives `drainPerHour = -Infinity` and the critical
`battery_increase` anomaly. -/
theorem battery_zero_elapsed_division_witness :
    drainPerHourOf ⟨1/2, 0⟩ 1 0 = .negInf ∧
    ({ type := "battery_increase", value := .negInf,
       significance := "critical",
       message := "Battery level increasing without charging source!" } : Anomaly)
      ∈ batteryAnomalies (some ⟨1/2, 0⟩) 1 0 :=
  (battery_zero_elapsed_division ⟨1/2, 0⟩ 1).2 (by norm_num)

/-- Claim C2 (counterexample): the claim says a magnetometer sample of
magnitude exactly 51.0 always produces the `magnetic_51` anomaly; with no
baseline established the listener skips every magnetometer rule, including
the baseline-independent 51 μT resonance check, and produces nothing. -/
theorem magnetic51_requires_baseline_counterexample :
    magnetometerAnomalies none 51 = [] := rfl

/-- Claim C2 (amended): whenever a baseline whose magnetic-field snapshot is
present (and non-zero, hence truthy) exists, a sample of magnitude exactly
51.0 produces the `magnetic_51` anomaly with significance `high`; a sample
of magnitude 52.5 never produces a `magnetic_51` anomaly, whatever the
baseline state. -/
theorem magnetic51_rule_with_baseline (bmf : ℚ) (h : bmf ≠ 0) :
    ({ type := "magnetic_51", value := .fin 51, significance := "high",
       message := "Magnetic field at State 51 resonance (51 uT)!" } : Anomaly)
      ∈ magnetometerAnomalies (some bmf) 51 ∧
    (∀ bm : Option ℚ, ∀ a ∈ magnetometerAnomalies bm (105/2),
      a.type ≠ "magnetic_51") := by
  constructor
  · simp only [magnetometerAnomalies, if_neg h]
    apply List.mem_append_right
    norm_num
  · intro bm a ha
    match bm with
    | none => simp [magnetometerAnomalies] at ha
    | some v =>
      by_cases hv : v = 0
      · simp [magnetometerAnomalies, hv] at ha
      · simp only [magnetometerAnomalies, if_neg hv] at ha
        have h₂ : ¬ (|(105/2 : ℚ) - 51| < 1) := by
          rw [abs_of_nonneg (by norm_num : (0:ℚ) ≤ 105/2 - 51)]
          norm_num
        rw [if_neg h₂, List.append_nil] at ha
        by_cases h₃ : (10 : ℚ) < |105/2 - v|
        · rw [if_pos h₃] at ha
          simp only [List.mem_singleton] at ha
          rw [ha]
          simp
        · rw [if_neg h₃] at ha
          simp at ha

/-- Claim C2 (witness): with a baseline magnetic field of 40 μT, magnitude
51 produces the `magnetic_51` anomaly. -/
theorem magnetic51_rule_with_baseline_witness :
    ({ type := "magnetic_51", value := .fin 51, significance := "high",
       message := "Magnetic field at State 51 resonance (51 uT)!" } : Anomaly)
      ∈ magnetometerAnomalies (some 40) 51 :=
  (magnetic51_rule_with_baseline 40 (by norm_num)).1

/-- Claim C1: on a day with no anomalies (dailyCount = 0) `analyzePatterns`
computes `cosmicCorrelation = 0 / 0 = NaN`, not the `0` the specification
prescribes — the division is unguarded. -/
theorem analyzePatterns_empty_daily_cosmicCorrelation_nan :
    (analyzePatterns (Database.mk [] [] []) 86400000).cosmicCorrelation
      = JSNum.nan ∧ JSNum.nan ≠ JSNum.fin 0 := by
  constructor
  · simp [analyzePatterns, getAnomalies, JSNum.div]
  · simp

/-- Claim C8: `calculateTrend [10,10,10,20,20,20]` is the increasing label
with percent change 100; `calculateTrend [10,10,10,10,10,10]` is stable;
and on any series of length at least 2 the label is stable exactly when the
percent change of the second-half mean relative to the first-half mean has
absolute value less than 1 (JavaScript comparison, so a NaN percent change
is never stable). -/
theorem calculateTrend_spec :
    calculateTrend [10, 10, 10, 20, 20, 20] = .increasing (.fin 100) ∧
    calculateTrend [10, 10, 10, 10, 10, 10] = .stable ∧
    ∀ values : List ℚ, 2 ≤ values.length →
      (calculateTrend values = .stable ↔
        ((percentChangeOf values).abs.lt (.fin 1)) = true) := by
  refine ⟨?_, ?_, ?_⟩
  · norm_num [calculateTrend, percentChangeOf, JSNum.div, JSNum.mul,
      JSNum.abs, JSNum.lt]
  · norm_num [calculateTrend, percentChangeOf, JSNum.div, JSNum.mul,
      JSNum.abs, JSNum.lt]
  · intro values hv
    simp only [calculateTrend]
    rw [if_neg (show ¬ values.length < 2 by omega)]
    by_cases hb : ((percentChangeOf values).abs.lt (JSNum.fin 1)) = true
    · rw [if_pos hb]
      simp [hb]
    · rw [if_neg hb]
      constructor
      · intro hc
        by_cases h₂ : ((JSNum.fin 0).lt (percentChangeOf values)) = true
        · rw [if_pos h₂] at hc; simp at hc
        · rw [if_neg h₂] at hc; simp at hc
      · intro hc
        exact absurd hc hb

/-- Claim C8 (witness): the constant series `[3, 3]` has percent change 0,
within the stability band. -/
theorem calculateTrend_spec_witness :
    calculateTrend [3, 3] = .stable ↔
      ((percentChangeOf [3, 3]).abs.lt (.fin 1)) = true :=
  calculateTrend_spec.2.2 [3, 3] (by decide)

/-- Helper: the first-match filter of `generateDailyReport` read
declaratively — an anomaly qualifies exactly when the scan list decomposes
around a scan within 60 seconds that is flagged active, with every earlier
scan not within 60 seconds. -/
theorem qualifiesB_iff (scans : List ScanRow) (a : AnomalyRow) :
    qualifiesB scans a = true ↔ firstScanNearIsActive scans a := by
  induction scans with
  | nil =>
    constructor
    · intro h
      simp [qualifiesB] at h
    · rintro ⟨pre, s, post, hEq, -, -, -⟩
      exact absurd hEq.symm (by simp)
  | cons s rest ih =>
    by_cases h : scanNearB a s = true
    · rw [qualifiesB, List.find?_cons_of_pos _ h]
      constructor
      · intro hact
        exact ⟨[], s, rest, rfl, h, hact, by simp⟩
      · rintro ⟨pre, s₂, post, hEq, hnear, hact, hpre⟩
        cases pre with
        | nil =>
          rw [List.nil_append] at hEq
          injection hEq with h₁ h₂
          rw [h₁]
          exact hact
        | cons p pre₂ =>
          rw [List.cons_append] at hEq
          injection hEq with h₁ h₂
          have hps := hpre p (List.mem_cons_self p pre₂)
          rw [← h₁, h] at hps
          exact Bool.noConfusion hps
    · have hf : scanNearB a s = false := by
        simpa using h
      have hstep : qualifiesB (s :: rest) a = qualifiesB rest a := by
        unfold qualifiesB
        rw [List.find?_cons_of_neg _ h]
      rw [hstep, ih]
      constructor
      · rintro ⟨pre, s₂, post, hEq, hnear, hact, hpre⟩
        refine ⟨s :: pre, s₂, post, ?_, hnear, hact, ?_⟩
        · rw [List.cons_append, ← hEq]
        · intro s₃ hs₃
          rcases List.mem_cons.mp hs₃ with h₃ | h₃
          · rw [h₃]; exact hf
          · exact hpre s₃ h₃
      · rintro ⟨pre, s₂, post, hEq, hnear, hact, hpre⟩
        cases pre with
        | nil =>
          rw [List.nil_append] at hEq
          injection hEq with h₁ h₂
          rw [← h₁, hf] at hnear
          exact Bool.noConfusion hnear
        | cons p pre₂ =>
          rw [List.cons_append] at hEq
          injection hEq with h₁ h₂
          exact ⟨pre₂, s₂, post, h₂, hnear, hact,
            fun s₃ hs₃ => hpre s₃ (List.mem_cons_of_mem p hs₃)⟩

/-- Helper: the correlation label is `positive` exactly when the rate
exceeds 0.1. -/
theorem correlation_label_iff (r : ℚ) :
    (if 1/10 < r then "positive" else "none") = "positive" ↔ 1/10 < r := by
  by_cases h : 1/10 < r
  · rw [if_pos h]
    exact iff_of_true rfl h
  · rw [if_neg h]
    constructor
    · intro hc
      exact absurd hc (by decide)
    · intro hc
      exact absurd hc h

/-- Claim C3 (counterexample): with one generation-active scan at time 0 and
two anomalies at time 0, the code's `anomalyRate` is `2` (qualifying
anomalies divided by active-scan count) while the fraction of the day's
anomalies near an active scan — what the claim states — is `1`. -/
theorem state51_anomalyRate_not_fraction_counterexample :
    (state51EffectOf
        [AnomalyRow.mk 0 "magnetic_anomaly" (.fin 12) "medium" false "",
         AnomalyRow.mk 0 "magnetic_anomaly" (.fin 15) "medium" false ""]
        [ScanRow.mk 0 (1/2) 45 true]).anomalyRate = 2 ∧
    claimAnomalyRate
        [AnomalyRow.mk 0 "magnetic_anomaly" (.fin 12) "medium" false "",
         AnomalyRow.mk 0 "magnetic_anomaly" (.fin 15) "medium" false ""]
        [ScanRow.mk 0 (1/2) 45 true] = 1 ∧
    (2 : ℚ) ≠ 1 := by
  refine ⟨?_, ?_, by norm_num⟩
  · norm_num [state51EffectOf, qualifiesB, scanNearB, List.find?, List.filter]
  · norm_num [claimAnomalyRate, scanNearB, List.filter, List.any]

/-- Claim C3 (amended): in `generateDailyReport`, the generation-effect
`anomalyRate` equals the number of the day's anomalies whose FIRST scan
within 60 seconds (in scan-list order) is flagged generation-active,
divided by the number of generation-active scans (`0` when there is none) —
not the fraction of the day's anomalies; and the correlation label is
`positive` exactly when that rate is greater than 0.1, otherwise `none`. -/
theorem state51Effect_characterization (anomalies : List AnomalyRow)
    (scans : List ScanRow) :
    ((state51EffectOf anomalies scans).correlation = "positive" ↔
      1/10 < (state51EffectOf anomalies scans).anomalyRate) ∧
    ((scans.filter (·.state51_active)).length = 0 →
      (state51EffectOf anomalies scans).anomalyRate = 0) ∧
    (0 < (scans.filter (·.state51_active)).length →
      (state51EffectOf anomalies scans).anomalyRate =
        ((anomalies.filter (qualifiesB scans)).length : ℚ) /
          ((scans.filter (·.state51_active)).length : ℚ)) ∧
    (∀ a, qualifiesB scans a = true ↔ firstScanNearIsActive scans a) := by
  refine ⟨?_, ?_, ?_, fun a => qualifiesB_iff scans a⟩
  · simp only [state51EffectOf]
    exact correlation_label_iff _
  · intro h
    simp only [state51EffectOf]
    rw [if_neg (by omega : ¬ 0 < (scans.filter (·.state51_active)).length)]
  · intro h
    simp only [state51EffectOf]
    rw [if_pos h]

/-- Claim C3 (witness): with one active scan the rate is the qualifying
count over the active-scan count. -/
theorem state51Effect_characterization_witness :
    (state51EffectOf [AnomalyRow.mk 0 "t" (.fin 0) "low" false ""]
        [ScanRow.mk 0 (1/2) 45 true]).anomalyRate =
      (([AnomalyRow.mk 0 "t" (.fin 0) "low" false ""].filter
          (qualifiesB [ScanRow.mk 0 (1/2) 45 true])).length : ℚ) /
        (([ScanRow.mk 0 (1/2) 45 true].filter (·.state51_active)).length : ℚ) :=
  (state51Effect_characterization _ _).2.2.1 (by decide)
